import Mathlib

/-!
Shallow embedding of the valuation and analytics engine of the trading
journal (src/calculations.py and the partial-close operation of
src/app.py), with theorems settling the specification claims.

Monetary amounts and prices are modelled as rationals (exact arithmetic);
timestamps are modelled as integer day counts, so that the Python
expression (end - start).days becomes plain integer subtraction.
Python attributes that can be absent (None) are modelled as Option.
-/

namespace TradingJournal

/-- Trade status: 'APERTA' (open) or 'CHIUSA' (closed). -/
inductive Stato
  | APERTA
  | CHIUSA
deriving DecidableEq, Repr

/-- A trade record, with the static input fields read by
calculate_metrics (src/calculations.py lines 5-66) and by the
partial-close operation (src/app.py lines 307-317). -/
structure Trade where
  quantita : ℚ
  prezzo_entrata : ℚ
  prezzo_medio_carico : Option ℚ
  prezzo_uscita : Option ℚ
  prezzo_attuale : Option ℚ
  costi_apertura : ℚ
  costi_chiusura : ℚ
  costo_mantenimento_annuo : ℚ
  data_operazione : ℤ
  stato : Stato
deriving DecidableEq, Repr

/-- Python truthiness fallback: the expression
a if a else b, where a is a number or None.
None and 0 are both falsy, so either selects the fallback. -/
def truthyOrElse (a : Option ℚ) (b : ℚ) : ℚ :=
  match a with
  | none => b
  | some x => if x = 0 then b else x

/-- Days held, as the CODE computes it (src/calculations.py lines 20-26):
the end date used is now for EVERY trade, because the variable date_end
computed on line 21 is never used; line 24 sets end_date = now_utc
unconditionally. days_held = max(1, (now - data_operazione).days). -/
def days_held (trade : Trade) (now : ℤ) : ℤ :=
  max 1 (now - trade.data_operazione)

/-- Days held, as the SPEC states it (spec.md section 4.1 step 3):
reference_end = now if OPEN, else the opening date, so a CLOSED trade
always gets days_held = max(1, 0) = 1. Written here for comparison
with the code-level days_held. -/
def days_held_spec (trade : Trade) (now : ℤ) : ℤ :=
  let reference_end := if trade.stato = Stato.APERTA then now else trade.data_operazione
  max 1 (reference_end - trade.data_operazione)

/-- The derived fields produced by calculate_metrics. -/
structure Metrics where
  investito_lordo : ℚ
  investito_netto : ℚ
  valore_attuale : ℚ
  plus_minus : ℚ
  tassazione : ℚ
  net_profit : ℚ
  rendimento_percentuale : ℚ
deriving DecidableEq, Repr

/-- calculate_metrics (src/calculations.py lines 5-66), value-semantics
version: returns the derived fields instead of mutating the trade.
costo_mantenimento_annuo is a plain field here (the getattr default 0.20
only fires when the attribute is missing from the object). -/
def calculate_metrics (trade : Trade) (now : ℤ) : Metrics :=
  let pmc := truthyOrElse trade.prezzo_medio_carico trade.prezzo_entrata
  let investito_lordo := trade.quantita * pmc
  let ann_rate := trade.costo_mantenimento_annuo / 100
  let maint_cost := investito_lordo * ann_rate / 365 * ((days_held trade now : ℤ) : ℚ)
  let investito_netto := investito_lordo + trade.costi_apertura + maint_cost
  if trade.stato = Stato.APERTA then
    let prezzo_rif := truthyOrElse trade.prezzo_attuale pmc
    let valore_attuale := trade.quantita * prezzo_rif
    let plus_minus := valore_attuale - investito_netto
    let tassazione := if plus_minus > 0 then plus_minus * (26 / 100) else 0
    let net_profit := plus_minus - tassazione
    let rendimento := if investito_netto > 0 then net_profit / investito_netto * 100 else 0
    { investito_lordo := investito_lordo, investito_netto := investito_netto,
      valore_attuale := valore_attuale, plus_minus := plus_minus,
      tassazione := tassazione, net_profit := net_profit,
      rendimento_percentuale := rendimento }
  else
    let prezzo_uscita := trade.prezzo_uscita.getD pmc
    let valore_attuale := trade.quantita * prezzo_uscita - trade.costi_chiusura
    let plus_minus := valore_attuale - investito_netto
    let tassazione := if plus_minus > 0 then plus_minus * (26 / 100) else 0
    let net_profit := plus_minus - tassazione
    let rendimento := if investito_netto > 0 then net_profit / investito_netto * 100 else 0
    { investito_lordo := investito_lordo, investito_netto := investito_netto,
      valore_attuale := valore_attuale, plus_minus := plus_minus,
      tassazione := tassazione, net_profit := net_profit,
      rendimento_percentuale := rendimento }

/-- Result of the partial-close branch: the mutated remainder (still
open) and the newly created closed lot. -/
structure CloseResult where
  remainder : Trade
  closed_lot : Trade
deriving DecidableEq, Repr

/-- Partial close (src/app.py lines 307-317, the s_qta < max_q branch of
the Chiudi Operazione form). A new CLOSED lot of quantity s_qta receives
the proportional opening cost (costi_apertura / max_q) * s_qta and the
exit price and closing fee; the original trade keeps the rest. Both
shares are computed from the original costi_apertura: line 313 builds
new_c before line 316 mutates t. -/
def partial_close (t : Trade) (s_qta exit_p fee_out : ℚ) : CloseResult :=
  let max_q := t.quantita
  let new_c : Trade :=
    { t with
      quantita := s_qta,
      prezzo_uscita := some exit_p,
      costi_apertura := t.costi_apertura / max_q * s_qta,
      costi_chiusura := fee_out,
      stato := Stato.CHIUSA }
  let t2 : Trade :=
    { t with
      quantita := t.quantita - s_qta,
      costi_apertura := t.costi_apertura - t.costi_apertura / max_q * s_qta }
  { remainder := t2, closed_lot := new_c }

/-- One row of the ledger dataframe consumed by the aggregators: a trade
whose derived fields have already been computed and persisted. -/
structure Row where
  stato : Stato
  data_operazione : ℤ
  investito_netto : ℚ
  plus_minus : ℚ
  tassazione : ℚ
  net_profit : ℚ
  rendimento_percentuale : ℚ
deriving DecidableEq, Repr

/-- The dictionary returned by get_tax_wallet_summary. -/
structure TaxWallet where
  total_realized_pl : ℚ
  total_taxes_paid : ℚ
  plusvalenze_totali : ℚ
  minusvalenze_totali : ℚ
  bilancio_fiscale : ℚ
deriving DecidableEq, Repr

/-- get_tax_wallet_summary (src/calculations.py lines 68-97): filter the
ledger to CLOSED trades; an empty result yields the all-zero dictionary,
otherwise sum realized P/L and taxes, and split the P/L sum into
plusvalenze (sum over positive plus_minus) and minusvalenze (absolute
value of the sum over negative plus_minus). -/
def get_tax_wallet_summary (df : List Row) : TaxWallet :=
  let closed_df := df.filter (fun r => r.stato = Stato.CHIUSA)
  if closed_df.isEmpty then
    { total_realized_pl := 0, total_taxes_paid := 0,
      plusvalenze_totali := 0, minusvalenze_totali := 0, bilancio_fiscale := 0 }
  else
    let realized_pl := (closed_df.map Row.plus_minus).sum
    let taxes_paid := (closed_df.map Row.tassazione).sum
    let minusvalenze := |((closed_df.filter (fun r => r.plus_minus < 0)).map Row.plus_minus).sum|
    let plusvalenze := ((closed_df.filter (fun r => r.plus_minus > 0)).map Row.plus_minus).sum
    { total_realized_pl := realized_pl, total_taxes_paid := taxes_paid,
      plusvalenze_totali := plusvalenze, minusvalenze_totali := minusvalenze,
      bilancio_fiscale := plusvalenze - minusvalenze }

/-- The dictionary returned by get_portfolio_performance_metrics on a
non-empty ledger. -/
structure PerfMetrics where
  monthly : ℚ
  ytd : ℚ
  ltm : ℚ
  inception : ℚ
deriving DecidableEq, Repr

/-- calc_period_return (src/calculations.py lines 110-114): 0 on an
empty window, otherwise profit / invested * 100 when invested > 0,
else 0. -/
def calc_period_return (df_period : List Row) : ℚ :=
  if df_period.isEmpty then 0
  else
    let invested := (df_period.map Row.investito_netto).sum
    let profit := (df_period.map Row.net_profit).sum
    if invested > 0 then profit / invested * 100 else 0

/-- get_portfolio_performance_metrics (src/calculations.py lines
99-136): an empty ledger returns the empty dictionary (modelled as
none); otherwise the four windows filter by opening date. now is the
current day number and year_start the day number of Jan 1 of the
current year (datetime(now.year, 1, 1)). -/
def get_portfolio_performance_metrics (df : List Row) (now year_start : ℤ) :
    Option PerfMetrics :=
  if df.isEmpty then none
  else
    some
      { monthly := calc_period_return (df.filter (fun r => r.data_operazione ≥ now - 30)),
        ytd := calc_period_return (df.filter (fun r => r.data_operazione ≥ year_start)),
        ltm := calc_period_return (df.filter (fun r => r.data_operazione ≥ now - 365)),
        inception := calc_period_return df }

/-- Stable insertion into a list sorted ascending by opening date. -/
def insertByDate (r : Row) : List Row → List Row
  | [] => [r]
  | x :: xs =>
    if r.data_operazione < x.data_operazione then r :: x :: xs
    else x :: insertByDate r xs

/-- df.sort_values of the risk aggregator (src/calculations.py line 149):
sort the ledger ascending by data_operazione. -/
def sortByDate (df : List Row) : List Row :=
  df.foldr insertByDate []

/-- Running cumulative sums (pandas cumsum), given the sum so far. -/
def cumsumFrom (acc : ℚ) : List ℚ → List ℚ
  | [] => []
  | x :: xs => (acc + x) :: cumsumFrom (acc + x) xs

/-- pandas Series.cumsum. -/
def cumsum (l : List ℚ) : List ℚ := cumsumFrom 0 l

/-- Running maxima (pandas cummax), given the maximum so far. -/
def cummaxFrom (m : ℚ) : List ℚ → List ℚ
  | [] => []
  | x :: xs => max m x :: cummaxFrom (max m x) xs

/-- pandas Series.cummax. -/
def cummax : List ℚ → List ℚ
  | [] => []
  | x :: xs => x :: cummaxFrom x xs

/-- Equity curve of the risk aggregator (src/calculations.py lines
171-172): initial_balance plus the cumulative sum of net_profit, over
the ledger sorted by opening date. -/
def equity_curve (df : List Row) (initial_balance : ℚ) : List ℚ :=
  (cumsum ((sortByDate df).map Row.net_profit)).map (fun c => initial_balance + c)

/-- Drawdown series (src/calculations.py lines 173-174):
(equity - peak) / peak with peak the running maximum of equity. -/
def drawdown_curve (df : List Row) (initial_balance : ℚ) : List ℚ :=
  List.zipWith (fun e p => (e - p) / p) (equity_curve df initial_balance)
    (cummax (equity_curve df initial_balance))

/-- Minimum of a series (pandas Series.min); 0 on the empty series. -/
def seriesMin : List ℚ → ℚ
  | [] => 0
  | x :: xs => xs.foldl min x

/-- max_drawdown (src/calculations.py line 176): the minimum of the
drawdown series. -/
def max_drawdown (df : List Row) (initial_balance : ℚ) : ℚ :=
  seriesMin (drawdown_curve df initial_balance)

/-- The period-return formula as the spec words it (spec.md section
4.3): sum of net_profit over the window divided by sum of
investito_netto over the window times 100, and 0 when the window holds
no trade or the denominator is not positive. Written for comparison
with calc_period_return. -/
def period_return_spec (rows : List Row) : ℚ :=
  if rows = [] ∨ (rows.map Row.investito_netto).sum ≤ 0 then 0
  else (rows.map Row.net_profit).sum / (rows.map Row.investito_netto).sum * 100

/-- A CLOSED trade opened at day 0, examined at day 10. -/
def c1_trade : Trade :=
  { quantita := 1, prezzo_entrata := 100, prezzo_medio_carico := none,
    prezzo_uscita := some 110, prezzo_attuale := none,
    costi_apertura := 0, costi_chiusura := 0,
    costo_mantenimento_annuo := 20 / 100, data_operazione := 0,
    stato := Stato.CHIUSA }

/-- The OPEN trade of the end-to-end scenario: quantity 10, cost basis
100, opening cost 5, annual rate 0, reference price 120, opened at day
0 and examined at day 10. -/
def c5_trade : Trade :=
  { quantita := 10, prezzo_entrata := 100, prezzo_medio_carico := some 100,
    prezzo_uscita := none, prezzo_attuale := some 120,
    costi_apertura := 5, costi_chiusura := 0,
    costo_mantenimento_annuo := 0, data_operazione := 0,
    stato := Stato.APERTA }

/-- An OPEN trade with quantity 10 and opening cost 6, used to exercise
the partial close. -/
def c2_trade : Trade :=
  { quantita := 10, prezzo_entrata := 20, prezzo_medio_carico := some 20,
    prezzo_uscita := none, prezzo_attuale := some 25,
    costi_apertura := 6, costi_chiusura := 0,
    costo_mantenimento_annuo := 20 / 100, data_operazione := 0,
    stato := Stato.APERTA }

/-- A CLOSED losing trade: exit price below cost basis. -/
def c3_trade : Trade :=
  { quantita := 5, prezzo_entrata := 50, prezzo_medio_carico := some 50,
    prezzo_uscita := some 40, prezzo_attuale := none,
    costi_apertura := 2, costi_chiusura := 2,
    costo_mantenimento_annuo := 0, data_operazione := 0,
    stato := Stato.CHIUSA }

/-- An OPEN trade whose average cost basis and current price are both
set to the number 0. -/
def c9_trade : Trade :=
  { quantita := 3, prezzo_entrata := 50, prezzo_medio_carico := some 0,
    prezzo_uscita := none, prezzo_attuale := some 0,
    costi_apertura := 1, costi_chiusura := 0,
    costo_mantenimento_annuo := 0, data_operazione := 0,
    stato := Stato.APERTA }

/-- An all-OPEN one-row ledger. -/
def c8_df : List Row :=
  [{ stato := Stato.APERTA, data_operazione := 0, investito_netto := 100,
     plus_minus := 5, tassazione := 0, net_profit := 5,
     rendimento_percentuale := 5 }]

/-- A two-row ledger with one gain and one loss, for the drawdown
witness. -/
def c6_df : List Row :=
  [{ stato := Stato.CHIUSA, data_operazione := 0, investito_netto := 100,
     plus_minus := 20, tassazione := 26 / 5, net_profit := 74 / 5,
     rendimento_percentuale := 74 / 5 },
   { stato := Stato.CHIUSA, data_operazione := 1, investito_netto := 100,
     plus_minus := -30, tassazione := 0, net_profit := -30,
     rendimento_percentuale := -30 }]

end TradingJournal

namespace TradingJournal

/-- C1. The claim says a CLOSED trade's days held are measured from the
opening date to the opening date itself, hence exactly 1. The code
disagrees: line 21 of src/calculations.py computes that end date into
the variable date_end but never uses it, and line 24 sets
end_date = now unconditionally, so a CLOSED trade opened 10 days ago
gets days_held = 10 where the spec formula gives 1. -/
theorem C1_closed_days_held_uses_now :
    days_held c1_trade 10 = 10 ∧ days_held_spec c1_trade 10 = 1 := by
  decide

/-- C5. End-to-end scenario: one OPEN trade with quantity 10, cost basis
100, opening cost 5, annual rate 0, reference price 120, opened exactly
10 days ago, yields gross invested 1000, net invested 1005, current
value 1200, gross P/L 195, tax 50.7, net profit 144.3 and return
percentage 962/67 ≈ 14.358. -/
theorem C5_end_to_end_open_scenario :
    (calculate_metrics c5_trade 10).investito_lordo = 1000 ∧
    (calculate_metrics c5_trade 10).investito_netto = 1005 ∧
    (calculate_metrics c5_trade 10).valore_attuale = 1200 ∧
    (calculate_metrics c5_trade 10).plus_minus = 195 ∧
    (calculate_metrics c5_trade 10).tassazione = 507 / 10 ∧
    (calculate_metrics c5_trade 10).net_profit = 1443 / 10 ∧
    (calculate_metrics c5_trade 10).rendimento_percentuale = 962 / 67 ∧
    |(calculate_metrics c5_trade 10).rendimento_percentuale - 14358 / 1000| < 1 / 1000 := by
  norm_num [calculate_metrics, c5_trade, truthyOrElse, days_held, abs_sub_lt_iff]
  rw [abs_of_pos (by norm_num)]
  norm_num

/-- C4, counterexample. The claim says every ledger, the empty one
included, yields a result containing the four window percentages; but
get_portfolio_performance_metrics returns the empty dictionary on an
empty ledger (src/calculations.py lines 103-104), so no percentages
are present. -/
theorem C4_empty_ledger_returns_no_percentages :
    get_portfolio_performance_metrics [] 0 0 = none := by
  decide

/-- calc_period_return computes exactly the spec's period-return
formula. -/
theorem calc_period_return_eq_spec (rows : List Row) :
    calc_period_return rows = period_return_spec rows := by
  rcases eq_or_ne rows [] with hr | hr
  · subst hr
    simp [calc_period_return, period_return_spec]
  · have hie : rows.isEmpty = false := by
      simpa [List.isEmpty_iff] using hr
    by_cases hs : (rows.map Row.investito_netto).sum > 0
    · have hcond : ¬(rows = [] ∨ (rows.map Row.investito_netto).sum ≤ 0) := by
        push_neg
        exact ⟨hr, hs⟩
      simp [calc_period_return, period_return_spec, hie, hs, hcond]
    · have hle : (rows.map Row.investito_netto).sum ≤ 0 := not_lt.mp hs
      simp [calc_period_return, period_return_spec, hie, hs, hle]

/-- C4, amended. For every NON-EMPTY ledger and every time window, the
performance aggregator returns a result containing the monthly, YTD,
LTM and inception percentages, each equal to the spec's period-return
formula over the trades opened in that window (0 when the window is
empty or its invested sum is not positive); the empty ledger instead
returns an empty result. -/
theorem C4_perf_windows_nonempty (df : List Row) (now year_start : ℤ)
    (h : df ≠ []) :
    ∃ m : PerfMetrics,
      get_portfolio_performance_metrics df now year_start = some m ∧
      m.monthly = period_return_spec (df.filter (fun r => r.data_operazione ≥ now - 30)) ∧
      m.ytd = period_return_spec (df.filter (fun r => r.data_operazione ≥ year_start)) ∧
      m.ltm = period_return_spec (df.filter (fun r => r.data_operazione ≥ now - 365)) ∧
      m.inception = period_return_spec df := by
  have hie : df.isEmpty = false := by
    simpa [List.isEmpty_iff] using h
  refine ⟨{ monthly := calc_period_return (df.filter (fun r => r.data_operazione ≥ now - 30)),
            ytd := calc_period_return (df.filter (fun r => r.data_operazione ≥ year_start)),
            ltm := calc_period_return (df.filter (fun r => r.data_operazione ≥ now - 365)),
            inception := calc_period_return df }, ?_, ?_, ?_, ?_, ?_⟩
  · simp [get_portfolio_performance_metrics, hie]
  all_goals simp [calc_period_return_eq_spec]

/-- C4 witness: the amended statement holds at a concrete one-row
ledger. -/
theorem C4_perf_windows_nonempty_witness :
    ∃ m : PerfMetrics,
      get_portfolio_performance_metrics
        [{ stato := Stato.APERTA, data_operazione := 0, investito_netto := 100,
           plus_minus := 10, tassazione := 0, net_profit := 10,
           rendimento_percentuale := 10 }] 0 0 = some m ∧
      m.monthly = period_return_spec
        (List.filter (fun r => r.data_operazione ≥ (0 : ℤ) - 30)
          [{ stato := Stato.APERTA, data_operazione := 0, investito_netto := 100,
             plus_minus := 10, tassazione := 0, net_profit := 10,
             rendimento_percentuale := 10 }]) ∧
      m.ytd = period_return_spec
        (List.filter (fun r => r.data_operazione ≥ (0 : ℤ))
          [{ stato := Stato.APERTA, data_operazione := 0, investito_netto := 100,
             plus_minus := 10, tassazione := 0, net_profit := 10,
             rendimento_percentuale := 10 }]) ∧
      m.ltm = period_return_spec
        (List.filter (fun r => r.data_operazione ≥ (0 : ℤ) - 365)
          [{ stato := Stato.APERTA, data_operazione := 0, investito_netto := 100,
             plus_minus := 10, tassazione := 0, net_profit := 10,
             rendimento_percentuale := 10 }]) ∧
      m.inception = period_return_spec
        [{ stato := Stato.APERTA, data_operazione := 0, investito_netto := 100,
           plus_minus := 10, tassazione := 0, net_profit := 10,
           rendimento_percentuale := 10 }] :=
  C4_perf_windows_nonempty _ 0 0 (by decide)

/-- C2. Partially closing an OPEN trade of quantity Q and opening cost C
by selling 0 < q < Q produces an open remainder and a new CLOSED lot
whose quantities sum to exactly Q and whose opening costs sum to exactly
C, the closed lot receiving the proportional share (C / Q) * q. -/
theorem C2_partial_close_conservation (t : Trade) (s_qta exit_p fee_out : ℚ)
    (hopen : t.stato = Stato.APERTA) (h0 : 0 < s_qta) (hlt : s_qta < t.quantita) :
    (partial_close t s_qta exit_p fee_out).remainder.quantita +
      (partial_close t s_qta exit_p fee_out).closed_lot.quantita = t.quantita ∧
    (partial_close t s_qta exit_p fee_out).remainder.costi_apertura +
      (partial_close t s_qta exit_p fee_out).closed_lot.costi_apertura = t.costi_apertura ∧
    (partial_close t s_qta exit_p fee_out).closed_lot.costi_apertura =
      t.costi_apertura / t.quantita * s_qta ∧
    (partial_close t s_qta exit_p fee_out).remainder.stato = Stato.APERTA ∧
    (partial_close t s_qta exit_p fee_out).closed_lot.stato = Stato.CHIUSA := by
  refine ⟨?_, ?_, ?_, ?_, ?_⟩ <;> simp [partial_close, hopen]

/-- C2 witness: selling 4 out of 10 with opening cost 6 splits the cost
as 3.6 + 2.4 and the quantity as 6 + 4. -/
theorem C2_partial_close_conservation_witness :
    (partial_close c2_trade 4 25 3).remainder.quantita +
      (partial_close c2_trade 4 25 3).closed_lot.quantita = c2_trade.quantita ∧
    (partial_close c2_trade 4 25 3).remainder.costi_apertura +
      (partial_close c2_trade 4 25 3).closed_lot.costi_apertura = c2_trade.costi_apertura ∧
    (partial_close c2_trade 4 25 3).closed_lot.costi_apertura =
      c2_trade.costi_apertura / c2_trade.quantita * 4 ∧
    (partial_close c2_trade 4 25 3).remainder.stato = Stato.APERTA ∧
    (partial_close c2_trade 4 25 3).closed_lot.stato = Stato.CHIUSA :=
  C2_partial_close_conservation c2_trade 4 25 3 rfl (by norm_num)
    (by norm_num [c2_trade])

/-- C3. For every trade, calculate_metrics sets the tax to 26% of the
gross profit/loss when that is strictly positive and to 0 otherwise, so
the tax is never negative and never applied to a loss. -/
theorem C3_tax_rule (trade : Trade) (now : ℤ) :
    ((calculate_metrics trade now).tassazione =
      if 0 < (calculate_metrics trade now).plus_minus
      then (calculate_metrics trade now).plus_minus * (26 / 100) else 0) ∧
    0 ≤ (calculate_metrics trade now).tassazione ∧
    ((calculate_metrics trade now).plus_minus ≤ 0 →
      (calculate_metrics trade now).tassazione = 0) := by
  refine ⟨?_, ?_, ?_⟩
  · by_cases hs : trade.stato = Stato.APERTA <;>
      simp only [calculate_metrics, hs, if_true, if_false, reduceIte]
  · by_cases hs : trade.stato = Stato.APERTA <;>
      simp only [calculate_metrics, hs, if_true, if_false, reduceIte] <;>
      split_ifs with h <;>
      first
        | exact mul_nonneg h.le (by norm_num)
        | exact le_refl 0
  · by_cases hs : trade.stato = Stato.APERTA <;>
      simp only [calculate_metrics, hs, if_true, if_false, reduceIte] <;>
      intro hle <;>
      rw [if_neg (not_lt.mpr hle)]

/-- C3 witness: the closed losing trade pays zero tax. -/
theorem C3_tax_rule_witness :
    (calculate_metrics c3_trade 0).plus_minus ≤ 0 ∧
    (calculate_metrics c3_trade 0).tassazione = 0 :=
  ⟨by norm_num +decide [calculate_metrics, c3_trade, truthyOrElse, days_held],
   (C3_tax_rule c3_trade 0).2.2
     (by norm_num +decide [calculate_metrics, c3_trade, truthyOrElse, days_held])⟩

/-- C7. For every trade, calculate_metrics sets the return percentage to
net_profit / net_invested * 100 when net_invested is strictly positive
and to 0 otherwise, so the division is only taken with a positive
divisor. -/
theorem C7_return_pct_rule (trade : Trade) (now : ℤ) :
    (calculate_metrics trade now).rendimento_percentuale =
      if 0 < (calculate_metrics trade now).investito_netto
      then (calculate_metrics trade now).net_profit /
        (calculate_metrics trade now).investito_netto * 100
      else 0 := by
  by_cases hs : trade.stato = Stato.APERTA <;>
    simp only [calculate_metrics, hs, if_true, if_false, reduceIte]

/-- C9. calculate_metrics treats the number 0 like an absent value in
its fallback checks: a trade whose average cost basis is the number 0
uses the entry price as cost basis, and an OPEN trade whose current
price is the number 0 values the position at quantity times cost basis
rather than 0. -/
theorem C9_zero_treated_as_absent (trade : Trade) (now : ℤ) :
    (trade.prezzo_medio_carico = some 0 →
      (calculate_metrics trade now).investito_lordo =
        trade.quantita * trade.prezzo_entrata) ∧
    (trade.stato = Stato.APERTA → trade.prezzo_attuale = some 0 →
      (calculate_metrics trade now).valore_attuale =
        trade.quantita * truthyOrElse trade.prezzo_medio_carico trade.prezzo_entrata) := by
  constructor
  · intro hp
    by_cases hs : trade.stato = Stato.APERTA <;>
      simp [calculate_metrics, hs, truthyOrElse, hp]
  · intro hs hp
    simp [calculate_metrics, hs, truthyOrElse, hp]

/-- C9 witness: with cost basis = 0 and current price = 0 the gross
invested uses the entry price and the value uses the cost-basis
fallback. -/
theorem C9_zero_treated_as_absent_witness :
    (calculate_metrics c9_trade 0).investito_lordo =
      c9_trade.quantita * c9_trade.prezzo_entrata ∧
    (calculate_metrics c9_trade 0).valore_attuale =
      c9_trade.quantita * truthyOrElse c9_trade.prezzo_medio_carico c9_trade.prezzo_entrata :=
  ⟨(C9_zero_treated_as_absent c9_trade 0).1 rfl,
   (C9_zero_treated_as_absent c9_trade 0).2 rfl rfl⟩

/-- C8. On a ledger containing no CLOSED trade, the tax-wallet summary
has realized P/L, taxes paid, total gains, total losses and fiscal
balance all exactly 0. -/
theorem C8_tax_wallet_all_open (df : List Row)
    (h : ∀ r ∈ df, r.stato ≠ Stato.CHIUSA) :
    get_tax_wallet_summary df =
      { total_realized_pl := 0, total_taxes_paid := 0, plusvalenze_totali := 0,
        minusvalenze_totali := 0, bilancio_fiscale := 0 } := by
  have hfil : df.filter (fun r => r.stato = Stato.CHIUSA) = [] := by
    rw [List.filter_eq_nil_iff]
    intro a ha
    simpa using h a ha
  simp [get_tax_wallet_summary, hfil]

/-- C8 witness: the one-row all-OPEN ledger yields the all-zero
summary. -/
theorem C8_tax_wallet_all_open_witness :
    get_tax_wallet_summary c8_df =
      { total_realized_pl := 0, total_taxes_paid := 0, plusvalenze_totali := 0,
        minusvalenze_totali := 0, bilancio_fiscale := 0 } :=
  C8_tax_wallet_all_open c8_df (by decide)

/-- The sum over the entries with positive plus_minus plus the sum over
those with negative plus_minus equals the total sum: zero entries
contribute nothing. -/
theorem sum_filter_pos_add_sum_filter_neg (l : List Row) :
    ((l.filter (fun r => r.plus_minus > 0)).map Row.plus_minus).sum +
      ((l.filter (fun r => r.plus_minus < 0)).map Row.plus_minus).sum =
      (l.map Row.plus_minus).sum := by
  induction l with
  | nil => simp
  | cons a l ih =>
    rcases lt_trichotomy a.plus_minus 0 with hneg | hzero | hpos
    · have hp : ¬a.plus_minus > 0 := by linarith
      simp only [List.filter_cons, List.map_cons, List.sum_cons, hneg, hp,
        if_true, if_false, decide_eq_true_eq]
      linarith [ih]
    · have hp : ¬a.plus_minus > 0 := by linarith
      have hn : ¬a.plus_minus < 0 := by linarith
      simp only [List.filter_cons, List.map_cons, List.sum_cons, hp, hn,
        if_true, if_false, decide_eq_true_eq]
      linarith [ih, hzero]
    · have hn : ¬a.plus_minus < 0 := by linarith
      simp only [List.filter_cons, List.map_cons, List.sum_cons, hpos, hn,
        if_true, if_false, decide_eq_true_eq]
      linarith [ih]

/-- The sum over the entries with negative plus_minus is nonpositive. -/
theorem sum_filter_neg_nonpos (l : List Row) :
    ((l.filter (fun r => r.plus_minus < 0)).map Row.plus_minus).sum ≤ 0 := by
  induction l with
  | nil => simp
  | cons a l ih =>
    by_cases hn : a.plus_minus < 0
    · simp only [List.filter_cons, List.map_cons, List.sum_cons, hn,
        if_true, if_false, decide_eq_true_eq]
      linarith
    · simp only [List.filter_cons, List.map_cons, List.sum_cons, hn,
        if_true, if_false, decide_eq_true_eq]
      exact ih

/-- C10. For every ledger, the tax-wallet fiscal balance (gains minus
losses) equals the total realized P/L (the sum of plus_minus over all
CLOSED trades). -/
theorem C10_fiscal_balance_eq_realized (df : List Row) :
    (get_tax_wallet_summary df).bilancio_fiscale =
      (get_tax_wallet_summary df).total_realized_pl := by
  by_cases hempty : (df.filter (fun r => r.stato = Stato.CHIUSA)).isEmpty
  · simp [get_tax_wallet_summary, hempty]
  · simp only [get_tax_wallet_summary, hempty, Bool.false_eq_true, if_false]
    have hneg := sum_filter_neg_nonpos (df.filter (fun r => r.stato = Stato.CHIUSA))
    have hsum := sum_filter_pos_add_sum_filter_neg
      (df.filter (fun r => r.stato = Stato.CHIUSA))
    rw [abs_of_nonpos hneg]
    linarith

/-- xs.foldl min a never exceeds the start value a. -/
theorem foldl_min_le_init (xs : List ℚ) (a : ℚ) : xs.foldl min a ≤ a := by
  induction xs generalizing a with
  | nil => simp
  | cons x xs ih =>
    simp only [List.foldl_cons]
    exact le_trans (ih (min a x)) (min_le_left a x)

/-- xs.foldl min a never exceeds any member of xs. -/
theorem foldl_min_le_mem : ∀ (xs : List ℚ) (a x : ℚ), x ∈ xs → xs.foldl min a ≤ x
  | [], _, x, hx => absurd hx (List.not_mem_nil x)
  | y :: ys, a, x, hx => by
    simp only [List.foldl_cons]
    rcases List.mem_cons.mp hx with h | h
    · subst h
      exact le_trans (foldl_min_le_init ys (min a x)) (min_le_right a x)
    · exact foldl_min_le_mem ys (min a y) x h

/-- The minimum of a series never exceeds any of its members. -/
theorem seriesMin_le_mem (l : List ℚ) (x : ℚ) (hx : x ∈ l) : seriesMin l ≤ x := by
  cases l with
  | nil => exact absurd hx (List.not_mem_nil x)
  | cons y ys =>
    rcases List.mem_cons.mp hx with h | h
    · subst h
      exact foldl_min_le_init ys x
    · exact foldl_min_le_mem ys y x h

/-- insertByDate grows the length by one. -/
theorem length_insertByDate (r : Row) (l : List Row) :
    (insertByDate r l).length = l.length + 1 := by
  induction l with
  | nil => rfl
  | cons x xs ih =>
    simp only [insertByDate]
    split_ifs
    · simp
    · simp [ih]

/-- Sorting preserves the length of the ledger. -/
theorem length_sortByDate (df : List Row) : (sortByDate df).length = df.length := by
  induction df with
  | nil => rfl
  | cons r rs ih =>
    simp only [sortByDate, List.foldr_cons] at ih ⊢
    rw [length_insertByDate, ih, List.length_cons]

/-- cumsumFrom preserves the length. -/
theorem length_cumsumFrom (l : List ℚ) (acc : ℚ) :
    (cumsumFrom acc l).length = l.length := by
  induction l generalizing acc with
  | nil => rfl
  | cons x xs ih => simp [cumsumFrom, ih]

/-- The equity curve has one point per ledger entry. -/
theorem length_equity_curve (df : List Row) (b : ℚ) :
    (equity_curve df b).length = df.length := by
  simp [equity_curve, cumsum, length_cumsumFrom, length_sortByDate]

/-- The drawdown of the first equity point is 0: the first running peak
is the first equity value itself. -/
theorem drawdown_zipWith_cons (e : ℚ) (es : List ℚ) :
    List.zipWith (fun x p => (x - p) / p) (e :: es) (cummax (e :: es)) =
      0 :: List.zipWith (fun x p => (x - p) / p) es (cummaxFrom e es) := by
  simp [cummax, sub_self, zero_div]

/-- C6. For every non-empty ledger and every initial balance, the
maximum drawdown is nonpositive and bounds every point of the drawdown
curve from below. -/
theorem C6_max_drawdown_bounds (df : List Row) (initial_balance : ℚ)
    (h : df ≠ []) :
    max_drawdown df initial_balance ≤ 0 ∧
    ∀ d ∈ drawdown_curve df initial_balance,
      max_drawdown df initial_balance ≤ d := by
  have hne : equity_curve df initial_balance ≠ [] := by
    intro hnil
    apply h
    have hl := length_equity_curve df initial_balance
    rw [hnil] at hl
    exact List.length_eq_zero.mp hl.symm
  obtain ⟨e, es, heq⟩ := List.exists_cons_of_ne_nil hne
  refine ⟨?_, fun d hd => seriesMin_le_mem _ d hd⟩
  have h0 : (0 : ℚ) ∈ drawdown_curve df initial_balance := by
    rw [drawdown_curve, heq, drawdown_zipWith_cons]
    exact List.mem_cons_self _ _
  exact seriesMin_le_mem _ 0 h0

/-- C6 witness: the bounds hold on a concrete two-trade ledger. -/
theorem C6_max_drawdown_bounds_witness :
    max_drawdown c6_df 100 ≤ 0 ∧
    ∀ d ∈ drawdown_curve c6_df 100, max_drawdown c6_df 100 ≤ d :=
  C6_max_drawdown_bounds c6_df 100 (by decide)

end TradingJournal
